import Mathlib

/-!
Verification of the CBA workbook generator (`cba_generator.py`).

The Python source is shallowly embedded: strings are `String` (lists of
unicode characters), pandas cell values are modelled as strings, the
generated worksheets are modelled as explicit lists of cell writes and
rendered-row records, and the Excel formulas synthesised by the generator
are modelled as a small expression tree together with an evaluator for the
fragment of Excel used (IF / OR / AND / LEN>0 / CHAR(10) / concatenation).

Modelling conventions, fixed once for the whole file:
* Python `str.strip()` and the regex class `\s` are modelled over the ASCII
  whitespace characters (space, tab, newline, carriage return, vertical
  tab, form feed); `str.lower()` and the case-insensitive regex flag are
  modelled with `Char.toLower`; the regex class `\d` with `Char.isDigit`.
* `int(ncols * 0.25)` is modelled as `ncols / 4` on `Nat`: 0.25 is a power
  of two, so the float product is exact for every realistic column count
  and truncation agrees with natural division.
* Dates: the generator reads `date.today()` once per call; the embedding
  passes the date in explicitly as a `PyDate` value.
-/

/-! ## Character and string utilities (Python semantics) -/

/-- ASCII whitespace, the model of Python whitespace for `str.strip` and `\s`. -/
def isSpace (c : Char) : Bool := c ∈ [' ', '\t', '\n', '\r', '\x0b', '\x0c']

/-- Python `str.strip()` on a character list. -/
def pyStrip (s : List Char) : List Char :=
  ((s.dropWhile isSpace).reverse.dropWhile isSpace).reverse

/-- Python `s.strip().lower()`, the key under which row labels are classified. -/
def keyOf (s : String) : String := String.mk ((pyStrip s.data).map Char.toLower)

/-- Case-insensitive literal match: if lowering the head of `s` yields the
(lowercase) word `w`, return the remainder of `s`. Models a fixed word inside
a case-insensitive regex. -/
def ciMatch : List Char → List Char → Option (List Char)
  | [], s => some s
  | _, [] => none
  | w :: ws, c :: cs => if c.toLower = w then ciMatch ws cs else none

/-- Does `pat` occur as a leading run of `s`? (case-sensitive). -/
def leadsWith : List Char → List Char → Bool
  | [], _ => true
  | _, [] => false
  | p :: ps, c :: cs => p = c && leadsWith ps cs

/-- Does `pat` occur somewhere inside `s`? Models Python `pat in s`. -/
def hasInfix (pat : List Char) : List Char → Bool
  | [] => leadsWith pat []
  | c :: cs => leadsWith pat (c :: cs) || hasInfix pat cs

/-- Excel column letters (`get_column_letter`): 1 ↦ A, …, 26 ↦ Z, 27 ↦ AA, … -/
def colLetter (n : Nat) : String :=
  if n = 0 then ""
  else if n ≤ 26 then String.singleton (Char.ofNat (64 + n))
  else colLetter ((n - 1) / 26) ++ String.singleton (Char.ofNat (65 + (n - 1) % 26))
termination_by n
decreasing_by
  have h2 : (n - 1) / 26 ≤ n - 1 := Nat.div_le_self _ _
  omega

/-- Python `s.replace(pat, rep)` (all occurrences, left to right, not
overlapping), on character lists, with an explicit fuel argument so that the
kernel can evaluate it; `replaceAllL` supplies sufficient fuel. -/
def replaceFuel (pat rep : List Char) : Nat → List Char → List Char
  | 0, s => s
  | _ + 1, [] => []
  | fuel + 1, c :: cs =>
    if pat ≠ [] ∧ leadsWith pat (c :: cs) then
      rep ++ replaceFuel pat rep fuel ((c :: cs).drop pat.length)
    else c :: replaceFuel pat rep fuel cs

/-- Python `s.replace(pat, rep)`. -/
def replaceAllL (pat rep s : List Char) : List Char := replaceFuel pat rep s.length s

/-- Python `s.split(sep)` (first-match, non-overlapping), fueled. -/
def splitGo (sep : List Char) : Nat → List Char → List Char → List (List Char)
  | 0, acc, s => [acc.reverse ++ s]
  | _ + 1, acc, [] => [acc.reverse]
  | fuel + 1, acc, c :: cs =>
    if sep ≠ [] ∧ leadsWith sep (c :: cs) then
      acc.reverse :: splitGo sep fuel [] ((c :: cs).drop sep.length)
    else splitGo sep fuel (c :: acc) cs

/-- Python `s.split(sep)` for a non-empty separator. -/
def splitOnL (sep s : List Char) : List (List Char) := splitGo sep (s.length + 1) [] s

/-- Python `sep.join(parts)`. -/
def joinSep (sep : String) : List String → String
  | [] => ""
  | [x] => x
  | x :: xs => x ++ sep ++ joinSep sep xs

/-! ## Rating/description extraction (`split_rating_and_desc`, source lines 86-106)

The source matches the stripped cell text against the case-insensitive regex

  `^\s*(very\s+good|excellent|good|fair|poor|\d(?:\.0)?)\s*(?:[:\-–—]\s*(.*))?$`

and then maps the matched token through `WORD_TO_NUM` / `int(float(...))`.
The regex is embedded as an explicit backtracking-free scanner: the six
alternatives begin with pairwise distinct letters, so PCRE alternation order
and this ordered trial agree; `.` does not match a newline, so group 2 must
be newline-free; the input is stripped before matching, so `^\s*` and the
trailing `$` subtleties around a final newline are vacuous. -/

/-- Separator characters of the regex class `[:\-–—]`. -/
def sepChars : List Char := [':', '-', '–', '—']

/-- The part of the regex after the rating token: `\s*(?:[:\-–—]\s*(.*))?$`.
Returns the characters captured by group 2 (`[]` when the optional group is
absent or captures nothing), or `none` when the regex does not match here. -/
def tailMatch (r : List Char) : Option (List Char) :=
  match r.dropWhile isSpace with
  | [] => some []
  | c :: rest =>
    if sepChars.contains c then
      let d := rest.dropWhile isSpace
      if d.contains '\n' then none else some d
    else none

/-- Alternative `very\s+good`: `very`, at least one whitespace, `good`.
Yields the lowered matched token (whitespace run preserved, as in
`m.group(1).lower()`) and the group-2 text. -/
def veryGoodAlt (s : List Char) : Option (List Char × List Char) :=
  match ciMatch "very".data s with
  | none => none
  | some r1 =>
    let ws := r1.takeWhile isSpace
    if ws.isEmpty then none
    else
      match ciMatch "good".data (r1.dropWhile isSpace) with
      | none => none
      | some r2 => (tailMatch r2).map (fun d => ("very".data ++ ws ++ "good".data, d))

/-- A fixed lowercase word alternative of the rating regex. -/
def wordAlt (w : List Char) (s : List Char) : Option (List Char × List Char) :=
  match ciMatch w s with
  | none => none
  | some r => (tailMatch r).map (fun d => (w, d))

/-- Alternative `\d(?:\.0)?`, greedy on the optional `.0` suffix. -/
def digitAlt (s : List Char) : Option (List Char × List Char) :=
  match s with
  | [] => none
  | c :: rest =>
    if c.isDigit then
      match rest with
      | '.' :: '0' :: r2 =>
        match tailMatch r2 with
        | some d => some ([c, '.', '0'], d)
        | none => (tailMatch rest).map (fun d => ([c], d))
      | _ => (tailMatch rest).map (fun d => ([c], d))
    else none

/-- The whole rating regex applied at the start of a stripped string:
lowered group 1 and group 2 on success. -/
def ratingScan (s : List Char) : Option (List Char × List Char) :=
  (veryGoodAlt s).orElse fun _ =>
  (wordAlt "excellent".data s).orElse fun _ =>
  (wordAlt "good".data s).orElse fun _ =>
  (wordAlt "fair".data s).orElse fun _ =>
  (wordAlt "poor".data s).orElse fun _ =>
  digitAlt s

/-- `int(float(tok))` for a one-digit token (`"7"` or `"7.0"`). -/
def digitVal (c : Char) : Nat :=
  if c = '0' then 0 else if c = '1' then 1 else if c = '2' then 2
  else if c = '3' then 3 else if c = '4' then 4 else if c = '5' then 5
  else if c = '6' then 6 else if c = '7' then 7 else if c = '8' then 8
  else if c = '9' then 9 else 0

/-- `["", "Poor", "Fair", "Good", "Very Good", "Excellent"][int(float(rt))]`
with the `IndexError` of indices 6-9 caught and turned into `""`. -/
def ratingOfDigit (c : Char) : String :=
  List.getD ["", "Poor", "Fair", "Good", "Very Good", "Excellent"] (digitVal c) ""

/-- The token-to-word mapping of the source: membership in `WORD_TO_NUM`
followed by `.title()` (with the special case for `"very good"`), else the
`int(float(...))` branch whose exceptions yield `""`. A matched `very\s+good`
token whose inner whitespace is not exactly one space is a `WORD_TO_NUM` miss
and `float()` raises on it, so it falls to the final `""`. -/
def codeRatingWord (tok : List Char) : String :=
  if tok = "poor".data then "Poor"
  else if tok = "fair".data then "Fair"
  else if tok = "good".data then "Good"
  else if tok = "very good".data then "Very Good"
  else if tok = "excellent".data then "Excellent"
  else
    match tok with
    | [d] => ratingOfDigit d
    | [d, '.', '0'] => ratingOfDigit d
    | _ => ""

/-- `split_rating_and_desc` (source lines 91-106). -/
def split_rating_and_desc (raw : String) : String × String :=
  let s := pyStrip raw.data
  if s = [] then ("", "")
  else
    match ratingScan s with
    | none => ("", String.mk s)
    | some (tok, d) => (codeRatingWord tok, String.mk d)

/-! ## Bulletization (`bulletize`, source lines 70-84) -/

/-- The separators whose presence triggers bulletization, in source order. -/
def bulletSeps : List (List Char) := ["\n".data, ";".data, " • ".data, " - ".data, " – ".data]

/-- `any(sep in s for sep in [...])`. -/
def hasAnySep (s : List Char) : Bool := bulletSeps.any (fun sep => hasInfix sep s)

/-- `re.sub(r"^\s*[-•–]\s*", "", ln).strip()`: drop one leading bullet/hyphen
marker (with surrounding whitespace) if present, then strip. -/
def stripMarker (ln : String) : String :=
  match ln.data.dropWhile isSpace with
  | m :: rest => if m ∈ ['-', '•', '–'] then String.mk (pyStrip rest) else String.mk (pyStrip ln.data)
  | [] => String.mk (pyStrip ln.data)

/-- `bulletize` (source lines 70-84). On the separator path the source
mutates `s` (removing `"\r"` and replacing each separator with `"\n"`) and,
when every resulting line is empty, returns that mutated string. -/
def bulletize (text : String) : String :=
  let s0 := pyStrip text.data
  if s0 = [] then ""
  else if hasAnySep s0 then
    let s2 := replaceAllL " - ".data "\n".data (replaceAllL " – ".data "\n".data
      (replaceAllL " • ".data "\n".data (replaceAllL ";".data "\n".data
        (replaceAllL "\r".data "".data s0))))
    let lines := (((splitOnL "\n".data s2).map (fun l => stripMarker (String.mk l))).filter
      (fun ln => ln ≠ ""))
    if lines.isEmpty then String.mk s2 else "• " ++ joinSep "\n• " lines
  else String.mk s0

/-! ## Sanity checks of the embedding on the spec's §8 examples -/

example : split_rating_and_desc "Good" = ("Good", "") := by decide
example : split_rating_and_desc "3 - Adequate support" = ("Good", "Adequate support") := by decide
example : split_rating_and_desc "Excellent: handles all loads; low risk" =
    ("Excellent", "handles all loads; low risk") := by decide
example : bulletize "handles all loads; low risk" = "• handles all loads\n• low risk" := by decide
example : bulletize "No special equipment" = "No special equipment" := by decide

/-! ## The template and row classification (source lines 50-65, 108-126, 188-198)

A `Template` models the dataframe `df0` after the header-stripping line
(`df0.columns = [str(c).strip() for c in df0.columns]`): `header0` is the
stripped first column header, `options` the stripped remaining headers, and
`rows` the body, one `(label, option cells)` pair per source row, cells as
raw strings. -/

structure Template where
  header0 : String
  options : List String
  rows : List (String × List String)
deriving DecidableEq

/-- `DESC_ROWS` (source line 50). -/
def DESC_ROWS : List String :=
  ["illustration", "description", "feasibility", "advantages", "disadvantages", "scheme"]

/-- `CONSID_ROWS` (source lines 52-65). -/
def CONSID_ROWS : List String :=
  ["foundation installation schedule", "installation schedule",
   "equipment/subcontractors necessary for foundations", "equipment/subcontractors",
   "spoils handling", "certainty of improvement", "authority having jurisdiction approval",
   "noise", "vibration", "cost", "market competition", "market familiarity"]

/-- `NO_BULLET_ROWS` (source line 67). -/
def NO_BULLET_ROWS : List String := ["feasibility"]

/-- `RATING_WORDS` (source line 39). -/
def RATING_WORDS : List String := ["Poor", "Fair", "Good", "Very Good", "Excellent"]

def isDesc (k : String) : Bool := DESC_ROWS.contains k

def isConsid (k : String) : Bool := CONSID_ROWS.contains k

/-- `"illustration" in lower` (source line 120). -/
def hasIllustration (t : Template) : Bool :=
  t.rows.any (fun rw => keyOf rw.1 == "illustration")

/-- Source lines 119-126: when no row label is (case-insensitively, after
trimming) `"illustration"`, a row `["Illustration", "", …, ""]` is prepended. -/
def ensureIllustration (t : Template) : Template :=
  if hasIllustration t then t
  else { t with rows := ("Illustration", List.replicate t.options.length "") :: t.rows }

/-- Rows of the `purpose + " Description"` section: labels in `DESC_ROWS`
(the `if` branch of the classification loop, source lines 189-191). -/
def descRows (t : Template) : List (String × List String) :=
  t.rows.filter (fun rw => isDesc (keyOf rw.1))

/-- Rows whose labels are in `CONSID_ROWS` but not in `DESC_ROWS` (the `elif`
branch, source lines 192-193). -/
def considRows (t : Template) : List (String × List String) :=
  t.rows.filter (fun rw => !isDesc (keyOf rw.1) && isConsid (keyOf rw.1))

/-- Rows in neither label set (the `else` branch, source lines 194-195). -/
def otherRows (t : Template) : List (String × List String) :=
  t.rows.filter (fun rw => !isDesc (keyOf rw.1) && !isConsid (keyOf rw.1))

/-- The rows of the `"Construction Considerations"` section, in render order:
`consid_idx + other_idx` (source line 198). Every row of this section is
processed with `is_cc = True` (source line 211). -/
def ccRows (t : Template) : List (String × List String) :=
  considRows t ++ otherRows t

/-- `attr_names_cc`: the labels collected, in order, from the rows rendered
with `is_cc = True` (source lines 202, 215). -/
def attr_names_cc (t : Template) : List String :=
  (ccRows t).map Prod.fst

/-! ## The Matrix sheet body (source lines 200-266)

Rendering starts at row `hr + 1 = 5`. A Construction-Considerations row
occupies two sheet rows (upper ratings, lower bulletized descriptions); a
Description-section row occupies one. The merged section-band column and all
styling are not modelled; the cell values and row geometry are. -/

/-- One rendered row of the Matrix sheet body: either a two-row
Construction-Considerations entry (label, upper sheet row, per-option rating
words, per-option bulletized descriptions) or a one-row Description-section
entry (label, sheet row, per-option cell texts). -/
inductive MRow where
  | cc : String → Nat → List String → List String → MRow
  | single : String → Nat → List String → MRow
deriving DecidableEq

/-- The label written in column B for the rendered row. -/
def MRow.label : MRow → String
  | .cc l _ _ _ => l
  | .single l _ _ => l

/-- The (upper) sheet row of the rendered row. -/
def MRow.row : MRow → Nat
  | .cc _ r _ _ => r
  | .single _ r _ => r

/-- How many sheet rows the rendered row occupies (source lines 214/235
versus 238/257). -/
def rowSpan : MRow → Nat
  | .cc _ _ _ _ => 2
  | .single _ _ _ => 1

/-- The cell text of a one-row (Description-section) entry for one option:
`feasibility` rows keep the raw text; otherwise a detected rating with empty
remainder shows just the rating word, and anything else is bulletized
(source lines 245-256). -/
def singleCellText (label raw : String) : String :=
  if NO_BULLET_ROWS.contains (keyOf label) then raw
  else
    let p := split_rating_and_desc raw
    if p.2 = "" ∧ p.1 ≠ "" then p.1
    else bulletize (if p.2 = "" then raw else p.2)

/-- Render the Description-section rows, one sheet row each, starting at
sheet row `r` (source lines 237-257). -/
def renderSingles (nOpts : Nat) (r : Nat) : List (String × List String) → List MRow
  | [] => []
  | (label, cells) :: rest =>
    MRow.single label r
        ((List.range nOpts).map (fun j0 => singleCellText label (cells.getD j0 "")))
      :: renderSingles nOpts (r + 1) rest

/-- Render the Construction-Considerations rows, two sheet rows each,
starting at sheet row `r` (source lines 213-235). -/
def renderCCs (nOpts : Nat) (r : Nat) : List (String × List String) → List MRow
  | [] => []
  | (label, cells) :: rest =>
    MRow.cc label r
        ((List.range nOpts).map (fun j0 => (split_rating_and_desc (cells.getD j0 "")).1))
        ((List.range nOpts).map (fun j0 => bulletize (split_rating_and_desc (cells.getD j0 "")).2))
      :: renderCCs nOpts (r + 2) rest

/-- The rendered Matrix body: the Description section (section name
`purpose + " Description"`, never equal to `"Construction Considerations"`,
so `is_cc` is false there), then the Construction-Considerations section.
An empty section contributes no rows and leaves `r` unchanged, exactly as
the source's `continue`. -/
def matrixRows (t : Template) : List MRow :=
  renderSingles t.options.length 5 (descRows t) ++
    renderCCs t.options.length (5 + (descRows t).length) (ccRows t)

/-- `find_matrix_row` (source lines 505-510): scan the body rows in sheet
order for a column-B value whose stripped, lowered text equals the target.
Lower rows of two-row entries hold `None` in column B and never match. -/
def findMatrixRow (ms : List MRow) (target : String) : Option Nat :=
  match ms with
  | [] => none
  | m :: rest => if keyOf m.label = target then some m.row else findMatrixRow rest target

/-! ## Matrix header row (source lines 171-185) and data validation
(source lines 301-319) -/

/-- The header row (sheet row 4): blank corner over column A, the label
column header (`"Options"` when the original header contains `"unnamed"`
case-insensitively), then `"Option N - name"` per option. -/
def headerRowCells (t : Template) : List (Option String) :=
  [none,
   some (if hasInfix "unnamed".data (t.header0.data.map Char.toLower)
         then "Options" else t.header0)] ++
  (List.range t.options.length).map
    (fun i0 => some ("Option " ++ toString (i0 + 1) ++ " - " ++ t.options.getD i0 ""))

/-- A list-type data validation: the allowed entries and the blank flag. -/
structure DV where
  choices : List String
  allowBlank : Bool
deriving DecidableEq

/-- The rating dropdown (source lines 301-310): `formula1` is the comma-join
of `RATING_WORDS` and `allow_blank=True`. -/
def ratingDV : DV := { choices := RATING_WORDS, allowBlank := true }

/-- A value accepted by a list data validation. -/
def dvAllowed (dv : DV) (v : String) : Prop :=
  v ∈ dv.choices ∨ (dv.allowBlank = true ∧ v = "")

/-- The sheet cells carrying the rating dropdown: every upper-row option
cell of every two-row entry, i.e. `upper_cells_by_col` flattened (source
lines 229-230, 313-315). Cells are `(row, column)` with option `j0`
(0-based) in column `3 + j0`. -/
def dvCellList (nOpts : Nat) : List MRow → List (Nat × Nat)
  | [] => []
  | MRow.cc _ u _ _ :: rest =>
    (List.range nOpts).map (fun j0 => (u, 3 + j0)) ++ dvCellList nOpts rest
  | MRow.single _ _ _ :: rest => dvCellList nOpts rest

/-- The dropdown-carrying cells of the generated Matrix sheet. -/
def dvCells (t : Template) : List (Nat × Nat) :=
  dvCellList t.options.length (matrixRows t)

/-! ## The row-2 info band (source lines 153-161) -/

/-- `left_end = max(2, int(ncols * 0.25))`. -/
def infoLeftEnd (ncols : Nat) : Nat := max 2 (ncols / 4)

/-- `right_start = max(left_end + 1, ncols - max(2, int(ncols * 0.25)) + 1)`. -/
def infoRightStart (ncols : Nat) : Nat :=
  max (infoLeftEnd ncols + 1) (ncols - max 2 (ncols / 4) + 1)

/-- `mid_start = left_end + 1`. -/
def infoMidStart (ncols : Nat) : Nat := infoLeftEnd ncols + 1

/-- `mid_end = right_start - 1`. -/
def infoMidEnd (ncols : Nat) : Nat := infoRightStart ncols - 1

/-! ## The Weights & SAW sheet as a sequence of cell writes
(source lines 331-421)

Only cell-value writes are modelled (no styling, widths or validations); a
cell's final content is the last write to its coordinates, which is exactly
openpyxl's overwrite behaviour. -/

/-- A cell value: text (including formula text, which starts with `=`) or a
number. -/
inductive CVal where
  | str : String → CVal
  | num : Nat → CVal
deriving DecidableEq

/-- One cell write: row, column, value. -/
structure WWrite where
  r : Nat
  c : Nat
  v : CVal
deriving DecidableEq

/-- Number of attributes, `n_attr = len(attr_names_cc)` (source line 357). -/
def nAttr (t : Template) : Nat := (attr_names_cc t).length

/-- The header row appended first (source lines 333-335). -/
def wswHeaders (t : Template) : List String :=
  ["Attribute", "Active?", "Importance (1–5)", "Weight (normalized)"] ++
    t.options.map (fun o => "NormScore - " ++ o)

def headerWrites (t : Template) : List WWrite :=
  (List.range (wswHeaders t).length).map
    (fun c0 => ⟨1, c0 + 1, CVal.str ((wswHeaders t).getD c0 "")⟩)

/-- The rating→number lookup map written to columns 12 (`L`) and 13 (`M`),
rows 1-6 (source lines 342-350), unrolled in write order. -/
def mapWrites : List WWrite :=
  [⟨1, 12, CVal.str "Rating"⟩, ⟨1, 13, CVal.str "Raw"⟩,
   ⟨2, 12, CVal.str "Poor"⟩, ⟨2, 13, CVal.num 1⟩,
   ⟨3, 12, CVal.str "Fair"⟩, ⟨3, 13, CVal.num 2⟩,
   ⟨4, 12, CVal.str "Good"⟩, ⟨4, 13, CVal.num 3⟩,
   ⟨5, 12, CVal.str "Very Good"⟩, ⟨5, 13, CVal.num 4⟩,
   ⟨6, 12, CVal.str "Excellent"⟩, ⟨6, 13, CVal.num 5⟩]

/-- The weight-normalization formula of attribute row `i`
(source lines 372-380). -/
def weightFormula (n : Nat) (i : Nat) : String :=
  "=IF(SUMPRODUCT(($B$2:$B$" ++ toString (1 + n) ++ "=\"Yes\")*($C$2:$C$" ++ toString (1 + n) ++
    "))=0,0,IF(B" ++ toString i ++ "=\"Yes\",C" ++ toString i ++ ",0)/SUMPRODUCT(($B$2:$B$" ++
    toString (1 + n) ++ "=\"Yes\")*($C$2:$C$" ++ toString (1 + n) ++ ")))"

/-- Upper-rating-cell sheet rows of the two-row entries, in order:
the rows whose addresses populate `upper_cells_by_col`. -/
def ccUpperRowsFrom (r : Nat) : List (String × List String) → List Nat
  | [] => []
  | _ :: rest => r :: ccUpperRowsFrom (r + 2) rest

/-- `upper_cells_by_col[j]` (1-based option `j`): rating-cell addresses in
the Matrix sheet, as strings. -/
def upperAddrs (t : Template) (j1 : Nat) : List String :=
  (ccUpperRowsFrom (5 + (descRows t).length) (ccRows t)).map
    (fun u => colLetter (2 + j1) ++ toString u)

/-- The INDEX/MATCH NormScore formula (source lines 388-391). -/
def normFormula (addr : String) : String :=
  "=MAX(0,(IFERROR(INDEX($M$2:$M$6,MATCH('Matrix'!" ++ addr ++ ",$L$2:$L$6,0)),0)-1)/4)"

/-- The writes of one attribute row `i` (source lines 363-392): name, active
flag, importance, weight formula, then one NormScore formula per option in
column `4 + j`. -/
def attrRowWrites (t : Template) (i : Nat) (attr : String) : List WWrite :=
  [⟨i, 1, CVal.str attr⟩, ⟨i, 2, CVal.str "Yes"⟩, ⟨i, 3, CVal.num 3⟩,
   ⟨i, 4, CVal.str (weightFormula (nAttr t) i)⟩] ++
  (List.range t.options.length).map
    (fun j0 => ⟨i, 5 + j0, CVal.str (normFormula ((upperAddrs t (j0 + 1)).getD (i - 2) ""))⟩)

def attrWritesAux (t : Template) (i : Nat) : List String → List WWrite
  | [] => []
  | a :: rest => attrRowWrites t i a ++ attrWritesAux t (i + 1) rest

def attrWrites (t : Template) : List WWrite := attrWritesAux t 2 (attr_names_cc t)

/-- `total_row = 2 + n_attr` (source line 395). -/
def totalRow (t : Template) : Nat := 2 + nAttr t

def sawFormula (t : Template) (col : Nat) : String :=
  "=SUMPRODUCT($D$2:$D$" ++ toString (1 + nAttr t) ++ "," ++ colLetter col ++ "2:" ++
    colLetter col ++ toString (1 + nAttr t) ++ ")"

def sawWrites (t : Template) : List WWrite :=
  ⟨totalRow t, 1, CVal.str "SAW Score"⟩ ::
    (List.range t.options.length).map
      (fun j0 => ⟨totalRow t, 5 + j0, CVal.str (sawFormula t (5 + j0))⟩)

def rankFormula (t : Template) (col : Nat) : String :=
  "=RANK(" ++ colLetter col ++ toString (totalRow t) ++ ",$E$" ++ toString (totalRow t) ++
    ":$" ++ colLetter (4 + t.options.length) ++ "$" ++ toString (totalRow t) ++ ",0)"

def rankWrites (t : Template) : List WWrite :=
  ⟨totalRow t + 1, 1, CVal.str "Rank"⟩ ::
    (List.range t.options.length).map
      (fun j0 => ⟨totalRow t + 1, 5 + j0, CVal.str (rankFormula t (5 + j0))⟩)

def score10Writes (t : Template) : List WWrite :=
  ⟨totalRow t + 2, 1, CVal.str "Score (0–10)"⟩ ::
    (List.range t.options.length).map
      (fun j0 => ⟨totalRow t + 2, 5 + j0,
        CVal.str ("=ROUND(10*" ++ colLetter (5 + j0) ++ toString (totalRow t) ++ ",0)")⟩)

def sumwWrites (t : Template) : List WWrite :=
  [⟨totalRow t + 3, 1, CVal.str "Sum of normalized weights"⟩,
   ⟨totalRow t + 3, 2, CVal.str ("=SUM($D$2:$D$" ++ toString (1 + nAttr t) ++ ")")⟩]

/-- Every cell-value write of the Weights & SAW sheet, in source order. -/
def wswWrites (t : Template) : List WWrite :=
  headerWrites t ++ mapWrites ++ attrWrites t ++ sawWrites t ++ rankWrites t ++
    score10Writes t ++ sumwWrites t

/-- The final content of a cell: the last write to its coordinates. -/
def wswFinal (t : Template) (r c : Nat) : Option CVal :=
  (((wswWrites t).filter (fun w => w.r = r ∧ w.c = c)).getLast?).map WWrite.v

/-- The columns holding the per-option NormScore/SAW formulas:
`col_idx = 4 + j` for 1-based option `j` (source lines 383-384). -/
def wswNormCols (t : Template) : List Nat :=
  (List.range t.options.length).map (fun j0 => 5 + j0)

/-! ## The Summary sheet's Summary-row formulas (source lines 573-595)

The formulas are modelled as a small expression tree; the evaluator gives
the Excel semantics of the fragment used (string-valued cells). -/

/-- Boolean parts of the summary formulas: `LEN(ref)>0`, `OR`, `AND`. -/
inductive SCond where
  | lenRefGt0 : Nat → Nat → SCond
  | orC : SCond → SCond → SCond
  | andC : SCond → SCond → SCond
deriving DecidableEq

/-- Text parts: literals, Matrix-sheet cell references, `CHAR(10)`,
concatenation `&`, and `IF`. -/
inductive SExpr where
  | lit : String → SExpr
  | ref : Nat → Nat → SExpr
  | ch10 : SExpr
  | cat : SExpr → SExpr → SExpr
  | ifE : SCond → SExpr → SExpr → SExpr
deriving DecidableEq

/-- Excel evaluation of a condition, given the Matrix-sheet cell texts. -/
def evalC (env : Nat → Nat → String) : SCond → Bool
  | .lenRefGt0 r c => (env r c).length ≠ 0
  | .orC a b => evalC env a || evalC env b
  | .andC a b => evalC env a && evalC env b

/-- Excel evaluation of a text expression, given the Matrix-sheet cell
texts. -/
def evalE (env : Nat → Nat → String) : SExpr → String
  | .lit s => s
  | .ref r c => env r c
  | .ch10 => "\n"
  | .cat a b => evalE env a ++ evalE env b
  | .ifE c a b => if evalC env c then evalE env a else evalE env b

/-- Does the expression contain a given literal (e.g. the `"Pros:"` block
marker)? -/
def mentionsLit (s : String) : SExpr → Bool
  | .lit x => x = s
  | .ref _ _ => false
  | .ch10 => false
  | .cat a b => mentionsLit s a || mentionsLit s b
  | .ifE _ a b => mentionsLit s a || mentionsLit s b

/-- The Matrix-sheet rows referenced by the expression. -/
def refRows : SExpr → List Nat
  | .lit _ => []
  | .ref r _ => [r]
  | .ch10 => []
  | .cat a b => refRows a ++ refRows b
  | .ifE _ a b => refRows a ++ refRows b

/-- The Summary-row formula for one option, reading Matrix column `c`
(source lines 577-595): four cases on the presence of the `Advantages` and
`Disadvantages` rows. -/
def summaryFormula (adv dis : Option Nat) (c : Nat) : SExpr :=
  match adv, dis with
  | some ra, some rd =>
    .ifE (.orC (.lenRefGt0 ra c) (.lenRefGt0 rd c))
      (.cat (.cat
        (.ifE (.lenRefGt0 ra c) (.cat (.cat (.lit "Pros:") .ch10) (.ref ra c)) (.lit ""))
        (.ifE (.andC (.lenRefGt0 ra c) (.lenRefGt0 rd c)) (.cat .ch10 .ch10) (.lit "")))
        (.ifE (.lenRefGt0 rd c) (.cat (.cat (.lit "Cons:") .ch10) (.ref rd c)) (.lit "")))
      (.lit "")
  | some ra, none =>
    .ifE (.lenRefGt0 ra c) (.cat (.cat (.lit "Pros:") .ch10) (.ref ra c)) (.lit "")
  | none, some rd =>
    .ifE (.lenRefGt0 rd c) (.cat (.cat (.lit "Cons:") .ch10) (.ref rd c)) (.lit "")
  | none, none => .lit ""

/-- The row of Summary-row formulas actually written, one per option
(columns B onward of sheet row 8); option `j0` reads Matrix column
`3 + j0`. The loop body runs for every option in every presence case: even
with both rows absent each cell receives the constant formula. -/
def summaryRowFormulas (t : Template) : List SExpr :=
  (List.range t.options.length).map
    (fun j0 => summaryFormula (findMatrixRow (matrixRows t) "advantages")
      (findMatrixRow (matrixRows t) "disadvantages") (3 + j0))

/-! ## Top-level generation (source lines 23-29, 108-126, 624-628) -/

/-- A calendar date, standing for `date.today()`. -/
structure PyDate where
  year : Nat
  month : Nat
  day : Nat
deriving DecidableEq

def monthName : Nat → String
  | 1 => "January" | 2 => "February" | 3 => "March" | 4 => "April"
  | 5 => "May" | 6 => "June" | 7 => "July" | 8 => "August"
  | 9 => "September" | 10 => "October" | 11 => "November" | 12 => "December"
  | _ => ""

def pad2 (n : Nat) : String := if n < 10 then "0" ++ toString n else toString n

def pad4 (n : Nat) : String :=
  if n < 10 then "000" ++ toString n
  else if n < 100 then "00" ++ toString n
  else if n < 1000 then "0" ++ toString n
  else toString n

/-- `f"{d:%B %d, %Y}"`. -/
def fmtLong (d : PyDate) : String :=
  monthName d.month ++ " " ++ pad2 d.day ++ ", " ++ pad4 d.year

/-- `f"{d:%m%d%Y}"`. -/
def fmtMDY (d : PyDate) : String := pad2 d.month ++ pad2 d.day ++ pad4 d.year

/-- `safe_name` (source lines 19-20): strip filesystem-unsafe characters. -/
def safe_name (s : String) : String :=
  String.mk (s.data.filter (fun c => !(['\\', '/', '*', '?', ':', '<', '>', '|', '"'].contains c)))

/-- The suggested output filename (source line 625). -/
def outName (purpose pname : String) (d : PyDate) : String :=
  safe_name ("TEG CBA Matrix-" ++ purpose ++ "-" ++ pname ++ "-" ++ fmtMDY d) ++ ".xlsx"

/-- The generated workbook's content: everything the generator writes into
the three sheets, plus the suggested filename. -/
structure GenOutput where
  title : String
  infoCells : List (Nat × String)
  header : List (Option String)
  body : List MRow
  dv : List (Nat × Nat)
  attrs : List String
  weights : List WWrite
  summary : List SExpr
  filename : String
deriving DecidableEq

/-- The workbook content assembled by a completed generation run: the pure
composition of all the stages above on the illustration-ensured template. -/
def generateContent (t : Template) (purpose pname ploc : String) (d : PyDate) : GenOutput :=
  let t1 := ensureIllustration t
  let ncols := 2 + t1.options.length
  { title := "Choose-by-Advantage Matrix for the " ++ purpose
    infoCells := [(1, "Project Name: " ++ pname),
                  (infoMidStart ncols, "Project Location: " ++ ploc),
                  (infoRightStart ncols, "Date: " ++ fmtLong d)]
    header := headerRowCells t1
    body := matrixRows t1
    dv := dvCells t1
    attrs := attr_names_cc t1
    weights := wswWrites t1
    summary := summaryRowFormulas t1
    filename := outName purpose pname d }

/-- The core generation function. It is fallible: openpyxl's `CellRange`
raises `ValueError` on a merged range whose minimum column exceeds its
maximum, and the info-band arithmetic produces exactly such a reversed
middle merge on the Matrix sheet (source line 160, `ncols = 2 + n_options`)
whenever `mid_end < mid_start`, and on the Summary sheet (source line 483,
`ncols_sum = 1 + n_options`) likewise; the respective right-band merges
(lines 161, 484) can also only be reversed under the same arithmetic. The
checks below mirror those merge calls in source order (left bands are never
reversed since `1 ≤ left_end`); every other merge in the source has
non-decreasing bounds. Its only inputs are the parsed template, the three
strings and the date; it reads nothing else. -/
def generate (t : Template) (purpose pname ploc : String) (d : PyDate) :
    Except String GenOutput :=
  let t1 := ensureIllustration t
  let ncols := 2 + t1.options.length
  if infoMidEnd ncols < infoMidStart ncols then
    Except.error "ValueError: reversed middle merge range on the Matrix info band"
  else if ncols < infoRightStart ncols then
    Except.error "ValueError: reversed right merge range on the Matrix info band"
  else
    let ncolsSum := 1 + t1.options.length
    if infoMidEnd ncolsSum < infoMidStart ncolsSum then
      Except.error "ValueError: reversed middle merge range on the Summary info band"
    else if ncolsSum < infoRightStart ncolsSum then
      Except.error "ValueError: reversed right merge range on the Summary info band"
    else Except.ok (generateContent t purpose pname ploc d)

/-- A wall-clock instant, standing for `datetime.now()` during `wb.save`. -/
structure PyDateTime where
  date : PyDate
  hour : Nat
  minute : Nat
  second : Nat
deriving DecidableEq

/-- The serialized xlsx archive: the workbook content together with the
ambient timestamps openpyxl embeds into the bytes — the
`DocumentProperties.created/modified` stamps written into
`docProps/core.xml`, and the zip entry `date_time` stamps that
`zipfile.writestr` takes from the current clock. Byte equality of two saved
archives is modelled as equality of this structure. -/
structure SavedArchive where
  content : GenOutput
  docPropsStamp : PyDateTime
  zipEntryStamp : PyDateTime

/-- `wb.save`: serialize the workbook content, embedding the save-time
wall-clock stamps. -/
def wb_save (g : GenOutput) (now : PyDateTime) : SavedArchive :=
  { content := g, docPropsStamp := now, zipEntryStamp := now }

/-! ## C1: the claim's splitting function, as the claim words it

Modelled from the claim: the text begins, after optional whitespace, with
one of the five rating words (case-insensitive, `"very good"` normalized to
`"Very Good"`) or a numeral 1-5 (decimal suffix `".0"` tolerated),
optionally followed by a colon/hyphen/en-dash/em-dash separator and trailing
free text; numerals map 1=Poor, 2=Fair, 3=Good, 4=Very Good, 5=Excellent;
any text not of this shape yields rating `""` and the full raw text as
description. -/

def claimTry (w : List Char) (out : String) (s : List Char) : Option (String × List Char) :=
  match ciMatch w s with
  | none => none
  | some r => (tailMatch r).map (fun d => (out, d))

def claimDigitWord (c : Char) : String :=
  if c = '1' then "Poor" else if c = '2' then "Fair" else if c = '3' then "Good"
  else if c = '4' then "Very Good" else if c = '5' then "Excellent" else ""

def claimDigit (s : List Char) : Option (String × List Char) :=
  match s with
  | [] => none
  | c :: rest =>
    if ['1', '2', '3', '4', '5'].contains c then
      match rest with
      | '.' :: '0' :: r2 =>
        match tailMatch r2 with
        | some d => some (claimDigitWord c, d)
        | none => (tailMatch rest).map (fun d => (claimDigitWord c, d))
      | _ => (tailMatch rest).map (fun d => (claimDigitWord c, d))
    else none

def claimScan (s : List Char) : Option (String × List Char) :=
  (claimTry "very good".data "Very Good" s).orElse fun _ =>
  (claimTry "excellent".data "Excellent" s).orElse fun _ =>
  (claimTry "good".data "Good" s).orElse fun _ =>
  (claimTry "fair".data "Fair" s).orElse fun _ =>
  (claimTry "poor".data "Poor" s).orElse fun _ =>
  claimDigit s

/-- The rating/description splitting that claim C1 describes. -/
def c1_claimSplit (raw : String) : String × String :=
  match claimScan (raw.data.dropWhile isSpace) with
  | none => ("", raw)
  | some (w, d) => (w, String.mk d)

/-! ## C1 amended: the splitting function the amended claim describes

Modelled from the amended claim: the matched token may be any of the five
rating words (case-insensitive; in `"very good"` any non-empty whitespace
run between the words is matched) or any single decimal digit 0-9 (suffix
`".0"` tolerated); the token is consumed up to an optional
colon/hyphen/en-dash/em-dash separator followed by a newline-free trailing
description. Canonical tokens map to their rating words and digits 1-5 to
Poor…Excellent; every other matched token (digits 0 and 6-9, or
`very good` with an internal whitespace run other than one space) yields
rating `""` while still consuming the token and separator. Unmatched text
yields rating `""` with the stripped text as description. -/

def amTail (r : List Char) : Option (List Char) :=
  match r.dropWhile isSpace with
  | [] => some []
  | c :: rest =>
    if sepChars.contains c then
      let d := rest.dropWhile isSpace
      if d.contains '\n' then none else some d
    else none

def amWordAlt (w : List Char) (out : String) (s : List Char) : Option (String × List Char) :=
  match ciMatch w s with
  | none => none
  | some r => (amTail r).map (fun d => (out, d))

def amVeryGood (s : List Char) : Option (String × List Char) :=
  match ciMatch "very".data s with
  | none => none
  | some r1 =>
    let ws := r1.takeWhile isSpace
    if ws.isEmpty then none
    else
      match ciMatch "good".data (r1.dropWhile isSpace) with
      | none => none
      | some r2 =>
        (amTail r2).map (fun d => ((if ws = [' '] then "Very Good" else ""), d))

def amDigit (s : List Char) : Option (String × List Char) :=
  match s with
  | [] => none
  | c :: rest =>
    if c.isDigit then
      match rest with
      | '.' :: '0' :: r2 =>
        match amTail r2 with
        | some d => some (claimDigitWord c, d)
        | none => (amTail rest).map (fun d => (claimDigitWord c, d))
      | _ => (amTail rest).map (fun d => (claimDigitWord c, d))
    else none

def amScan (s : List Char) : Option (String × List Char) :=
  (amVeryGood s).orElse fun _ =>
  (amWordAlt "excellent".data "Excellent" s).orElse fun _ =>
  (amWordAlt "good".data "Good" s).orElse fun _ =>
  (amWordAlt "fair".data "Fair" s).orElse fun _ =>
  (amWordAlt "poor".data "Poor" s).orElse fun _ =>
  amDigit s

/-- The rating/description splitting that the amended claim C1 describes. -/
def c1_amendedSplit (raw : String) : String × String :=
  let s := pyStrip raw.data
  if s = [] then ("", "")
  else
    match amScan s with
    | none => ("", String.mk s)
    | some (w, d) => (w, String.mk d)

/-! ## Concrete templates used as witnesses and counterexamples -/

/-- A small template with Description-section and Construction-Consideration
rows, no Illustration row, and 4 option columns (the smallest count the
generator completes on, see the `generate` merge checks). -/
def sampleT : Template :=
  { header0 := "Options", options := ["A", "B", "C", "D"],
    rows := [("Description", ["d1", "d2", "d3", "d4"]),
             ("Cost", ["Good", "3 - ok", "Poor", "Fair"]),
             ("Advantages", ["a1", "", "a3", "a4"]),
             ("Disadvantages", ["", "d2", "d3", "d4"])] }

/-- A 4-option template with one Construction-Consideration row and one
unrecognized row. -/
def tC2 : Template :=
  { header0 := "Label", options := ["A", "B", "C", "D"],
    rows := [("Cost", ["Good", "Good", "Good", "Good"]),
             ("Zebra", ["x", "x", "x", "x"])] }

/-- A 4-option template with neither an Advantages nor a Disadvantages
row. -/
def tNoAdv : Template :=
  { header0 := "Label", options := ["A", "B", "C", "D"],
    rows := [("Cost", ["Good", "Fair", "Poor", "Excellent"])] }

/-- A template with 2 option columns: the Matrix info-band middle merge is
reversed (`C2:B2`) and generation fails. -/
def t2opt : Template :=
  { header0 := "Label", options := ["A", "B"], rows := [("Cost", ["1", "2"])] }

/-- A template with 8 option columns. -/
def t8 : Template :=
  { header0 := "Label", options := ["O1", "O2", "O3", "O4", "O5", "O6", "O7", "O8"],
    rows := [("Cost", ["1", "2", "3", "4", "5", "1", "2", "3"])] }

/-- A template with 9 option columns. -/
def t9 : Template :=
  { header0 := "Label", options := ["O1", "O2", "O3", "O4", "O5", "O6", "O7", "O8", "O9"],
    rows := [("Cost", ["1", "2", "3", "4", "5", "1", "2", "3", "4"])] }

/-- A sample date. -/
def d0 : PyDate := { year := 2026, month := 10, day := 12 }

/-- Two wall-clock instants on the same date, two seconds apart. -/
def tNoon : PyDateTime := { date := d0, hour := 12, minute := 0, second := 0 }

def tNoon2 : PyDateTime := { date := d0, hour := 12, minute := 0, second := 2 }

/-- The rating word of the `k`-th map row (0-based), for stating C9. -/
def mapName (k : Nat) : String :=
  ["Poor", "Fair", "Good", "Very Good", "Excellent"].getD k ""

/-! ## Helper lemmas -/

theorem strLen_zero_iff (s : String) : s.length = 0 ↔ s = "" := by
  cases s with
  | mk data =>
    constructor
    · intro h
      have hd : data = [] := List.length_eq_zero.mp h
      simp [hd]
    · intro h
      have hd : String.mk data = String.mk [] := h
      have : data = [] := by injection hd
      simp [String.length, this]

theorem mapRange_const {α : Type} (n : Nat) (x : α) :
    (List.range n).map (fun _ => x) = List.replicate n x := by
  apply List.eq_replicate_iff.mpr
  constructor
  · simp
  · intro y hy
    rcases List.mem_map.mp hy with ⟨_, _, rfl⟩
    rfl

theorem consid_not_desc (k : String) (h : isConsid k = true) : isDesc k = false := by
  have hm : k ∈ CONSID_ROWS := by
    have h2 := List.contains_iff_exists_mem_beq.mp h
    rcases h2 with ⟨b, hb, he⟩
    rcases eq_of_beq he with rfl
    exact hb
  simp only [CONSID_ROWS, List.mem_cons, List.not_mem_nil, or_false] at hm
  rcases hm with rfl | rfl | rfl | rfl | rfl | rfl | rfl | rfl | rfl | rfl | rfl | rfl <;> decide

/-! ## Claim C5: bulletization on separator-free text -/

/-- C5 counterexample: the claim says bulletization is the identity on every
non-empty single-line separator-free text, but the source strips surrounding
whitespace first: on `" No special equipment"` (non-empty, single-line, and
containing none of the five separators) the output is the stripped text, not
the input. -/
theorem c5_counterexample :
    " No special equipment" ≠ "" ∧
    hasAnySep " No special equipment".data = false ∧
    bulletize " No special equipment" ≠ " No special equipment" ∧
    bulletize " No special equipment" = "No special equipment" := by
  refine ⟨by decide, by decide, by decide, by decide⟩

/-- C5 (amended): for every input whose stripped text is non-empty and
contains none of the recognized separators (newline, `;`, `" • "`, `" - "`,
`" – "`), bulletization returns the stripped input — in particular it is the
identity on such text without surrounding whitespace, e.g.
`"No special equipment"`. -/
theorem c5_bulletize_amended (raw : String)
    (h1 : pyStrip raw.data ≠ [])
    (h2 : hasAnySep (pyStrip raw.data) = false) :
    bulletize raw = String.mk (pyStrip raw.data) := by
  simp [bulletize, h1, h2]

/-- C5 witness: the amended theorem applied to `"No special equipment"`. -/
theorem c5_witness :
    pyStrip "No special equipment".data ≠ [] ∧
    hasAnySep (pyStrip "No special equipment".data) = false ∧
    bulletize "No special equipment" = "No special equipment" := by
  refine ⟨by decide, by decide, ?_⟩
  rw [c5_bulletize_amended "No special equipment" (by decide) (by decide)]
  decide

/-! ## Claim C6: the row-2 info band geometry -/

theorem ensureIllustration_options (t : Template) :
    (ensureIllustration t).options.length = t.options.length := by
  unfold ensureIllustration
  split <;> rfl

/-- None of the four info-band merge ranges (Matrix mid/right on
`ncols = 2 + n`, Summary mid/right on `ncols_sum = 1 + n`) is reversed once
there are at least 4 options. -/
theorem info_band_checks (n : Nat) (h : 4 ≤ n) :
    ¬(infoMidEnd (2 + n) < infoMidStart (2 + n)) ∧
    ¬(2 + n < infoRightStart (2 + n)) ∧
    ¬(infoMidEnd (1 + n) < infoMidStart (1 + n)) ∧
    ¬(1 + n < infoRightStart (1 + n)) := by
  simp only [infoMidEnd, infoMidStart, infoRightStart, infoLeftEnd]
  obtain ⟨q1, r1, hqr1, hr1⟩ : ∃ q r, 2 + n = 4 * q + r ∧ r < 4 :=
    ⟨(2 + n) / 4, (2 + n) % 4, by omega, by omega⟩
  obtain ⟨q2, r2, hqr2, hr2⟩ : ∃ q r, 1 + n = 4 * q + r ∧ r < 4 :=
    ⟨(1 + n) / 4, (1 + n) % 4, by omega, by omega⟩
  rw [show (2 + n) / 4 = q1 by omega, show (1 + n) / 4 = q2 by omega, hqr1, hqr2]
  simp only [Nat.max_def]
  split_ifs <;> exact ⟨by omega, by omega, by omega, by omega⟩

/-- C6 counterexample: with 2 options (`ncols = 4`) the info-band arithmetic
gives `mid_start = 3 > 2 = mid_end`, so the middle merge range is reversed
and generation raises `ValueError` — row 2 is never split into three merged
regions at all at that option count, refuting the claim's "for every option
count". -/
theorem c6_counterexample :
    infoLeftEnd (2 + 2) = 2 ∧ infoRightStart (2 + 2) = 3 ∧
    infoMidEnd (2 + 2) < infoMidStart (2 + 2) ∧
    generate t2opt "P" "N" "L" d0 =
      Except.error "ValueError: reversed middle merge range on the Matrix info band" := by
  refine ⟨by decide, by decide, by decide, rfl⟩

/-- C6 (amended): for every option count of at least 4, generation completes
and row 2 splits into three contiguous bands — columns `1..left_end`,
`mid_start..mid_end` and `right_start..ncols` with
`mid_start = left_end + 1` and `right_start = mid_end + 1` — each spanning
at least 2 columns (widths approximately 25%/50%/25%); with 3 or fewer
options an info-band middle merge range is reversed (on the Matrix sheet for
at most 2 options, on the Summary sheet for exactly 3) and generation fails
with `ValueError` before any workbook is produced. -/
theorem c6_bands_amended :
    (∀ n : Nat, 4 ≤ n →
       2 ≤ infoLeftEnd (n + 2) ∧
       infoMidStart (n + 2) = infoLeftEnd (n + 2) + 1 ∧
       infoMidStart (n + 2) + 1 ≤ infoMidEnd (n + 2) ∧
       infoMidEnd (n + 2) + 1 = infoRightStart (n + 2) ∧
       infoRightStart (n + 2) + 1 ≤ n + 2) ∧
    (∀ (t : Template) (p nm l : String) (d : PyDate), t.options.length ≤ 3 →
       ∃ msg, generate t p nm l d = Except.error msg) ∧
    (∀ (t : Template) (p nm l : String) (d : PyDate), 4 ≤ t.options.length →
       generate t p nm l d = Except.ok (generateContent t p nm l d)) := by
  refine ⟨?_, ?_, ?_⟩
  · intro n h
    simp only [infoLeftEnd, infoRightStart, infoMidStart, infoMidEnd]
    obtain ⟨q, r, hqr, hr4⟩ : ∃ q r, n + 2 = 4 * q + r ∧ r < 4 :=
      ⟨(n + 2) / 4, (n + 2) % 4, by omega, by omega⟩
    rw [show (n + 2) / 4 = q by omega]
    rw [hqr]
    simp only [Nat.max_def]
    split_ifs <;> exact ⟨by omega, by trivial, by omega, by omega, by omega⟩
  · intro t p nm l d hle
    have hn := ensureIllustration_options t
    have hcase : t.options.length = 0 ∨ t.options.length = 1 ∨
        t.options.length = 2 ∨ t.options.length = 3 := by omega
    simp only [generate]
    rw [hn]
    rcases hcase with h | h | h | h <;> rw [h] <;> exact ⟨_, rfl⟩
  · intro t p nm l d h4
    have hn := ensureIllustration_options t
    obtain ⟨hA, hB, hC, hD⟩ := info_band_checks t.options.length h4
    simp only [generate]
    rw [hn, if_neg hA, if_neg hB, if_neg hC, if_neg hD]

/-- C6 witness: the amended theorem at 4 options (geometry), at a concrete
2-option template (failure) and at a concrete 4-option template
(completion). -/
theorem c6_witness :
    (2 ≤ infoLeftEnd 6 ∧ infoMidStart 6 = infoLeftEnd 6 + 1 ∧
     infoMidStart 6 + 1 ≤ infoMidEnd 6 ∧ infoMidEnd 6 + 1 = infoRightStart 6 ∧
     infoRightStart 6 + 1 ≤ 6) ∧
    (∃ msg, generate t2opt "P" "N" "L" d0 = Except.error msg) ∧
    generate tC2 "P" "N" "L" d0 = Except.ok (generateContent tC2 "P" "N" "L" d0) :=
  ⟨c6_bands_amended.1 4 (by decide),
   c6_bands_amended.2.1 t2opt "P" "N" "L" d0 (by decide),
   c6_bands_amended.2.2 tC2 "P" "N" "L" d0 (by decide)⟩

/-! ## Claim C10: the label-column header cell -/

/-- C10: the Matrix header row's label-column cell (row 4, column B, index 1
of the header-cell list) is `"Options"` exactly when the trimmed first
column header contains `"unnamed"` case-insensitively, and the trimmed
original header otherwise. (`Template.header0` models the header after the
source's trimming of all column headers.) -/
theorem c10_header_display (t : Template) :
    (headerRowCells t).getD 1 none =
      some (if hasInfix "unnamed".data (t.header0.data.map Char.toLower)
            then "Options" else t.header0) := rfl

/-! ## Claim C8: determinism of generation -/

/-- C8 counterexample: `sampleT` (4 options) generates successfully, but two
saves of the identical workbook content at two wall-clock instants on the
same date differ: openpyxl stamps `docProps/core.xml` created/modified from
`datetime.now()` and every zip entry's `date_time` from the current clock,
so the output bytes are not determined by the inputs and the environment
date alone. -/
theorem c8_counterexample :
    generate sampleT "P" "N" "L" d0 = Except.ok (generateContent sampleT "P" "N" "L" d0) ∧
    tNoon ≠ tNoon2 ∧ tNoon.date = tNoon2.date ∧
    wb_save (generateContent sampleT "P" "N" "L" d0) tNoon ≠
      wb_save (generateContent sampleT "P" "N" "L" d0) tNoon2 := by
  refine ⟨rfl, by decide, by decide, ?_⟩
  intro h
  have hc := congrArg SavedArchive.docPropsStamp h
  simp only [wb_save] at hc
  exact absurd hc (by decide)

/-- C8 (amended): two calls with identical parsed template, purpose, project
name, location and environment date produce identical generation results —
the same success-or-error outcome, identical workbook content, and a
filename determined by purpose, project name and the date; the serialized
bytes additionally agree exactly when the save-time wall-clock stamps the
library embeds (docProps created/modified, zip entry times) coincide, and
differ whenever those stamps differ, even on the same date. In the
embedding the generator is a pure function of exactly its inputs — the
source's only ambient reads are `date.today()` (the explicit date
parameter) and the save-time clock (the explicit `wb_save` parameter). -/
theorem c8_deterministic_amended :
    (∀ (t1 t2 : Template) (p1 p2 n1 n2 l1 l2 : String) (d1 d2 : PyDate),
       t1 = t2 → p1 = p2 → n1 = n2 → l1 = l2 → d1 = d2 →
       generate t1 p1 n1 l1 d1 = generate t2 p2 n2 l2 d2 ∧
       ∀ g : GenOutput, generate t1 p1 n1 l1 d1 = Except.ok g →
         g.filename = outName p1 n1 d1) ∧
    (∀ (g : GenOutput) (now1 now2 : PyDateTime), now1 = now2 →
       wb_save g now1 = wb_save g now2) ∧
    (∀ (g : GenOutput) (now1 now2 : PyDateTime), now1 ≠ now2 →
       wb_save g now1 ≠ wb_save g now2) := by
  refine ⟨?_, ?_, ?_⟩
  · intro t1 t2 p1 p2 n1 n2 l1 l2 d1 d2 ht hp hn hl hd
    cases ht; cases hp; cases hn; cases hl; cases hd
    refine ⟨rfl, ?_⟩
    intro g hg
    simp only [generate] at hg
    split_ifs at hg
    all_goals rw [← Except.ok.inj hg]
    rfl
  · intro g now1 now2 he
    cases he
    rfl
  · intro g now1 now2 hne h
    have hc := congrArg SavedArchive.docPropsStamp h
    simp only [wb_save] at hc
    exact hne hc

/-- C8 witness: the amended theorem at concrete arguments (identical inputs,
then two saves at the same instant, then two saves two seconds apart). -/
theorem c8_witness :
    (generate sampleT "P" "N" "L" d0 = generate sampleT "P" "N" "L" d0 ∧
     (generateContent sampleT "P" "N" "L" d0).filename = outName "P" "N" d0) ∧
    wb_save (generateContent sampleT "P" "N" "L" d0) tNoon =
      wb_save (generateContent sampleT "P" "N" "L" d0) tNoon ∧
    wb_save (generateContent sampleT "P" "N" "L" d0) tNoon ≠
      wb_save (generateContent sampleT "P" "N" "L" d0) tNoon2 := by
  have h := c8_deterministic_amended
  refine ⟨⟨(h.1 sampleT sampleT "P" "P" "N" "N" "L" "L" d0 d0 rfl rfl rfl rfl rfl).1,
           (h.1 sampleT sampleT "P" "P" "N" "N" "L" "L" d0 d0 rfl rfl rfl rfl rfl).2
             (generateContent sampleT "P" "N" "L" d0) rfl⟩,
          h.2.1 (generateContent sampleT "P" "N" "L" d0) tNoon tNoon rfl,
          h.2.2 (generateContent sampleT "P" "N" "L" d0) tNoon tNoon2 (by decide)⟩

/-! ## Claim C3: the synthetic Illustration row -/

/-- C3: for every template with no row whose trimmed, lowercased label
equals `"illustration"`, generation prepends a synthetic `"Illustration"`
row with an empty cell for every option; it is the first entry of the Matrix
sheet's Description section (sheet row 5) with blank option cells, and the
illustration row lookup used by the Summary sheet's reference formulas
always resolves (to row 5). -/
theorem c3_illustration_prepended (t : Template)
    (h : ∀ rw ∈ t.rows, keyOf rw.1 ≠ "illustration") :
    (matrixRows (ensureIllustration t)).head? =
      some (MRow.single "Illustration" 5 (List.replicate t.options.length "")) ∧
    findMatrixRow (matrixRows (ensureIllustration t)) "illustration" = some 5 := by
  have hf : hasIllustration t = false := by
    simp only [hasIllustration, List.any_eq_false, beq_iff_eq]
    exact fun rw hrw => h rw hrw
  have he : ensureIllustration t =
      { t with rows := ("Illustration", List.replicate t.options.length "") :: t.rows } := by
    simp [ensureIllustration, hf]
  have hdesc : descRows (ensureIllustration t) =
      ("Illustration", List.replicate t.options.length "") :: descRows t := by
    rw [he]
    simp only [descRows]
    have hpos : isDesc (keyOf "Illustration") = true := by decide
    exact List.filter_cons_of_pos hpos
  have hcells : (List.range t.options.length).map
      (fun j0 => singleCellText "Illustration" ((List.replicate t.options.length "").getD j0 "")) =
      List.replicate t.options.length "" := by
    rw [List.map_congr_left (g := fun _ => ""), mapRange_const]
    intro j0 _
    have hg : (List.replicate t.options.length "").getD j0 "" = "" := by
      rcases Nat.lt_or_ge j0 t.options.length with hlt | hge
      · simp [List.getD, List.getElem?_replicate, hlt]
      · simp [List.getD, List.getElem?_eq_none, hge]
    rw [hg]
    decide
  have hopts : (ensureIllustration t).options = t.options := by rw [he]
  have hm : matrixRows (ensureIllustration t) =
      MRow.single "Illustration" 5 (List.replicate t.options.length "") ::
        (renderSingles t.options.length 6 (descRows t) ++
          renderCCs t.options.length (5 + (descRows (ensureIllustration t)).length)
            (ccRows (ensureIllustration t))) := by
    rw [matrixRows, hopts, hdesc]
    rw [renderSingles]
    rw [hcells]
    simp [List.cons_append]
  constructor
  · rw [hm]; rfl
  · rw [hm, findMatrixRow]
    have hpos2 : keyOf "Illustration" = "illustration" := by decide
    simp only [MRow.label, MRow.row, hpos2, if_true]

/-- C3 witness: the theorem applied to a concrete template without an
Illustration row. -/
theorem c3_witness :
    (∀ rw ∈ sampleT.rows, keyOf rw.1 ≠ "illustration") ∧
    ((matrixRows (ensureIllustration sampleT)).head? =
       some (MRow.single "Illustration" 5 (List.replicate sampleT.options.length "")) ∧
     findMatrixRow (matrixRows (ensureIllustration sampleT)) "illustration" = some 5) :=
  ⟨by decide, c3_illustration_prepended sampleT (by decide)⟩

/-! ## Claim C2: which rows become weighting attributes -/

/-- C2 counterexample: `tC2` has 4 option columns, so generation completes
(no reversed info-band merge), and in this completed run the attribute list
of the Weights & SAW sheet is `["Cost", "Zebra"]` — the `Zebra` row, whose
label is in neither label set, participates as an attribute — while the
claim predicts `["Cost"]`. -/
theorem c2_counterexample :
    generate tC2 "P" "N" "L" d0 = Except.ok (generateContent tC2 "P" "N" "L" d0) ∧
    (generateContent tC2 "P" "N" "L" d0).attrs = ["Cost", "Zebra"] ∧
    (tC2.rows.filter (fun rw => isConsid (keyOf rw.1))).map Prod.fst = ["Cost"] ∧
    (generateContent tC2 "P" "N" "L" d0).attrs ≠
      (tC2.rows.filter (fun rw => isConsid (keyOf rw.1))).map Prod.fst := by
  refine ⟨rfl, by decide, by decide, by decide⟩

/-- C2 (amended): the Weights & SAW sheet contains exactly one attribute row
per template row whose trimmed, lowercased label is NOT in the
Description-section label set: first the rows whose labels are in the
Construction-Consideration set, in source row order, then the rows whose
labels are in neither set, in source row order. Description-set rows do not
participate in the weighting model. -/
theorem c2_attrs_amended (t : Template) :
    attr_names_cc (ensureIllustration t) =
      (t.rows.filter (fun rw => isConsid (keyOf rw.1))).map Prod.fst ++
      (t.rows.filter (fun rw => !isDesc (keyOf rw.1) && !isConsid (keyOf rw.1))).map Prod.fst := by
  have hcons : ∀ rows : List (String × List String),
      rows.filter (fun rw => !isDesc (keyOf rw.1) && isConsid (keyOf rw.1)) =
        rows.filter (fun rw => isConsid (keyOf rw.1)) := by
    intro rows
    apply List.filter_congr
    intro x _
    cases hq : isConsid (keyOf x.1) with
    | true => simp [consid_not_desc _ hq]
    | false => simp
  have key : ∀ rows : List (String × List String),
      (considRows { t with rows := rows } ++ otherRows { t with rows := rows }).map Prod.fst =
        (rows.filter (fun rw => isConsid (keyOf rw.1))).map Prod.fst ++
        (rows.filter (fun rw => !isDesc (keyOf rw.1) && !isConsid (keyOf rw.1))).map Prod.fst := by
    intro rows
    simp only [considRows, otherRows]
    rw [hcons rows, List.map_append]
  cases hi : hasIllustration t with
  | true =>
    have he : ensureIllustration t = t := by simp [ensureIllustration, hi]
    rw [he, attr_names_cc, ccRows]
    have := key t.rows
    simpa using this
  | false =>
    have he : ensureIllustration t =
        { t with rows := ("Illustration", List.replicate t.options.length "") :: t.rows } := by
      simp [ensureIllustration, hi]
    rw [he, attr_names_cc, ccRows]
    have hstep := key (("Illustration", List.replicate t.options.length "") :: t.rows)
    simp only [] at hstep
    rw [hstep]
    have h1 : isConsid (keyOf "Illustration") = false := by decide
    have h2 : isDesc (keyOf "Illustration") = true := by decide
    rw [List.filter_cons_of_neg (by simp [h1]), List.filter_cons_of_neg (by simp [h2])]

/-! ## Claim C7: two rows and a rating dropdown per Construction-Consideration row -/

theorem renderCCs_mem (nOpts : Nat) (rows : List (String × List String))
    (row : String × List String) (hm : row ∈ rows) :
    ∀ r : Nat, ∃ u rs ds, MRow.cc row.1 u rs ds ∈ renderCCs nOpts r rows := by
  induction rows with
  | nil => cases hm
  | cons hd tl ih =>
    intro r
    rcases List.mem_cons.mp hm with heq | htl
    · subst heq
      exact ⟨r, _, _, by rw [renderCCs]; exact List.mem_cons_self _ _⟩
    · rcases ih htl (r + 2) with ⟨u, rs, ds, hin⟩
      refine ⟨u, rs, ds, ?_⟩
      rw [renderCCs]
      exact List.mem_cons_of_mem _ hin

theorem dvCellList_mem (nOpts : Nat) (ms : List MRow) (lab : String) (u : Nat)
    (rs ds : List String) (hm : MRow.cc lab u rs ds ∈ ms) :
    ∀ j0 : Nat, j0 < nOpts → (u, 3 + j0) ∈ dvCellList nOpts ms := by
  induction ms with
  | nil => cases hm
  | cons hd tl ih =>
    intro j0 hj
    rcases List.mem_cons.mp hm with heq | htl
    · rw [← heq, dvCellList]
      exact List.mem_append_left _ (List.mem_map.mpr ⟨j0, List.mem_range.mpr hj, rfl⟩)
    · cases hd with
      | cc l0 u0 rs0 ds0 =>
        rw [dvCellList]
        exact List.mem_append_right _ (ih htl j0 hj)
      | single l0 r0 cs0 =>
        rw [dvCellList]
        exact ih htl j0 hj

/-- C7: every template row whose trimmed, lowercased label is in the
Construction-Consideration set is rendered as a two-sheet-row entry of the
Matrix body, each of its upper-row option cells carries the rating dropdown,
and the dropdown (allow-blank list over the five rating words) admits
exactly the values `"", Poor, Fair, Good, Very Good, Excellent`. -/
theorem c7_cc_rows_two_and_dv (t : Template) (lab : String) (cs : List String)
    (hmem : (lab, cs) ∈ t.rows) (hcc : isConsid (keyOf lab) = true) :
    (∃ u rs ds, MRow.cc lab u rs ds ∈ matrixRows t ∧
       rowSpan (MRow.cc lab u rs ds) = 2 ∧
       ∀ j0 : Nat, j0 < t.options.length → (u, 3 + j0) ∈ dvCells t) ∧
    (∀ v : String, dvAllowed ratingDV v ↔
       v ∈ ["", "Poor", "Fair", "Good", "Very Good", "Excellent"]) := by
  constructor
  · have hrow : (lab, cs) ∈ ccRows t := by
      apply List.mem_append_left
      apply List.mem_filter.mpr
      refine ⟨hmem, ?_⟩
      simp [consid_not_desc _ hcc, hcc]
    rcases renderCCs_mem t.options.length (ccRows t) (lab, cs) hrow
        (5 + (descRows t).length) with ⟨u, rs, ds, hin⟩
    refine ⟨u, rs, ds, ?_, rfl, ?_⟩
    · exact List.mem_append_right _ hin
    · intro j0 hj
      exact dvCellList_mem t.options.length (matrixRows t) lab u rs ds
        (List.mem_append_right _ hin) j0 hj
  · intro v
    simp only [dvAllowed, ratingDV, RATING_WORDS, List.mem_cons, List.not_mem_nil, or_false]
    tauto

/-- C7 witness: the theorem at the `Cost` row of a concrete template. -/
theorem c7_witness :
    ("Cost", ["Good", "Good", "Good", "Good"]) ∈ tC2.rows ∧ isConsid (keyOf "Cost") = true ∧
    ((∃ u rs ds, MRow.cc "Cost" u rs ds ∈ matrixRows tC2 ∧
        rowSpan (MRow.cc "Cost" u rs ds) = 2 ∧
        ∀ j0 : Nat, j0 < tC2.options.length → (u, 3 + j0) ∈ dvCells tC2) ∧
     (∀ v : String, dvAllowed ratingDV v ↔
        v ∈ ["", "Poor", "Fair", "Good", "Very Good", "Excellent"])) :=
  ⟨by decide, by decide,
   c7_cc_rows_two_and_dv tC2 "Cost" ["Good", "Good", "Good", "Good"] (by decide) (by decide)⟩

/-! ## Claim C4: the Summary-row Pros/Cons formulas -/

/-- C4 counterexample: `tNoAdv` has 4 option columns (generation completes)
and neither an `Advantages` nor a `Disadvantages` row; in the completed
run's Summary row every option cell is still written, each with the constant
formula `=""`, contradicting the claim's "the row is omitted entirely". -/
theorem c4_counterexample :
    generate tNoAdv "P" "N" "L" d0 = Except.ok (generateContent tNoAdv "P" "N" "L" d0) ∧
    (generateContent tNoAdv "P" "N" "L" d0).summary = List.replicate 4 (SExpr.lit "") ∧
    (generateContent tNoAdv "P" "N" "L" d0).summary ≠ [] := by
  refine ⟨rfl, by decide, by decide⟩

/-- C4 (amended): for every template, option and assignment of texts to
Matrix cells — with both label rows present the Summary formula evaluates to
the concatenation of a `Pros:` block and a `Cons:` block (blank-line
separated), omitting either block when its source cell text is empty; with
only one label row present the formula references only that existing row
(so it cannot error) and omits the other block entirely; with both rows
absent each option cell is written with the constant formula `=""`,
evaluating to empty text, rather than the row being omitted. -/
theorem c4_summary_amended (t : Template) (env : Nat → Nat → String) (j0 : Nat) :
    match findMatrixRow (matrixRows t) "advantages",
          findMatrixRow (matrixRows t) "disadvantages" with
    | some ra, some rd =>
        evalE env (summaryFormula (some ra) (some rd) (3 + j0)) =
          (if env ra (3 + j0) = "" then "" else "Pros:\n" ++ env ra (3 + j0)) ++
          (if env ra (3 + j0) = "" ∨ env rd (3 + j0) = "" then "" else "\n\n") ++
          (if env rd (3 + j0) = "" then "" else "Cons:\n" ++ env rd (3 + j0))
    | some ra, none =>
        evalE env (summaryFormula (some ra) none (3 + j0)) =
          (if env ra (3 + j0) = "" then "" else "Pros:\n" ++ env ra (3 + j0)) ∧
        mentionsLit "Cons:" (summaryFormula (some ra) none (3 + j0)) = false ∧
        refRows (summaryFormula (some ra) none (3 + j0)) = [ra]
    | none, some rd =>
        evalE env (summaryFormula none (some rd) (3 + j0)) =
          (if env rd (3 + j0) = "" then "" else "Cons:\n" ++ env rd (3 + j0)) ∧
        mentionsLit "Pros:" (summaryFormula none (some rd) (3 + j0)) = false ∧
        refRows (summaryFormula none (some rd) (3 + j0)) = [rd]
    | none, none =>
        summaryRowFormulas t = List.replicate t.options.length (SExpr.lit "") := by
  cases ha : findMatrixRow (matrixRows t) "advantages" with
  | some ra =>
    cases hd : findMatrixRow (matrixRows t) "disadvantages" with
    | some rd =>
      simp only []
      by_cases hae : env ra (3 + j0) = "" <;> by_cases hde : env rd (3 + j0) = "" <;>
        simp [summaryFormula, evalE, evalC, hae, hde, strLen_zero_iff,
          (strLen_zero_iff _).not]
    | none =>
      simp only []
      refine ⟨?_, by simp [summaryFormula, mentionsLit], by simp [summaryFormula, refRows]⟩
      by_cases hae : env ra (3 + j0) = "" <;>
        simp [summaryFormula, evalE, evalC, hae, strLen_zero_iff, (strLen_zero_iff _).not]
  | none =>
    cases hd : findMatrixRow (matrixRows t) "disadvantages" with
    | some rd =>
      simp only []
      refine ⟨?_, by simp [summaryFormula, mentionsLit], by simp [summaryFormula, refRows]⟩
      by_cases hde : env rd (3 + j0) = "" <;>
        simp [summaryFormula, evalE, evalC, hde, strLen_zero_iff, (strLen_zero_iff _).not]
    | none =>
      simp only [summaryRowFormulas, ha, hd]
      rw [List.map_congr_left (g := fun _ => SExpr.lit "")]
      · exact mapRange_const _ _
      · intro x _
        rfl

/-! ## Claim C9: the rating map at L/M versus the per-option columns -/

theorem headerWrites_row (t : Template) : ∀ w ∈ headerWrites t, w.r = 1 := by
  intro w hw
  rcases List.mem_map.mp hw with ⟨c0, _, rfl⟩
  rfl

theorem attrWritesAux_shape (t : Template) (l : List String) :
    ∀ (i : Nat) (w : WWrite), w ∈ attrWritesAux t i l →
      i ≤ w.r ∧ (w.c ≤ 4 ∨ ∃ j0, j0 < t.options.length ∧ w.c = 5 + j0) := by
  induction l with
  | nil =>
    intro i w hw
    rw [attrWritesAux] at hw
    cases hw
  | cons a rest ih =>
    intro i w hw
    rw [attrWritesAux] at hw
    rcases List.mem_append.mp hw with h1 | h2
    · rw [attrRowWrites] at h1
      rcases List.mem_append.mp h1 with h3 | h4
      · simp only [List.mem_cons, List.not_mem_nil, or_false] at h3
        rcases h3 with rfl | rfl | rfl | rfl <;> exact ⟨Nat.le_refl i, Or.inl (by simp)⟩
      · rcases List.mem_map.mp h4 with ⟨j0, hj0, rfl⟩
        exact ⟨Nat.le_refl i, Or.inr ⟨j0, List.mem_range.mp hj0, rfl⟩⟩
    · have h := ih (i + 1) w h2
      exact ⟨by omega, h.2⟩

theorem sawWrites_shape (t : Template) :
    ∀ w ∈ sawWrites t, totalRow t ≤ w.r ∧
      (w.c ≤ 2 ∨ ∃ j0, j0 < t.options.length ∧ w.c = 5 + j0) := by
  intro w hw
  rw [sawWrites] at hw
  rcases List.mem_cons.mp hw with rfl | h2
  · exact ⟨by simp, Or.inl (by simp)⟩
  · rcases List.mem_map.mp h2 with ⟨j0, hj0, rfl⟩
    exact ⟨by simp, Or.inr ⟨j0, List.mem_range.mp hj0, rfl⟩⟩

theorem rankWrites_shape (t : Template) :
    ∀ w ∈ rankWrites t, totalRow t ≤ w.r ∧
      (w.c ≤ 2 ∨ ∃ j0, j0 < t.options.length ∧ w.c = 5 + j0) := by
  intro w hw
  rw [rankWrites] at hw
  rcases List.mem_cons.mp hw with rfl | h2
  · exact ⟨by simp, Or.inl (by simp)⟩
  · rcases List.mem_map.mp h2 with ⟨j0, hj0, rfl⟩
    exact ⟨by simp, Or.inr ⟨j0, List.mem_range.mp hj0, rfl⟩⟩

theorem score10Writes_shape (t : Template) :
    ∀ w ∈ score10Writes t, totalRow t ≤ w.r ∧
      (w.c ≤ 2 ∨ ∃ j0, j0 < t.options.length ∧ w.c = 5 + j0) := by
  intro w hw
  rw [score10Writes] at hw
  rcases List.mem_cons.mp hw with rfl | h2
  · exact ⟨by simp, Or.inl (by simp)⟩
  · rcases List.mem_map.mp h2 with ⟨j0, hj0, rfl⟩
    exact ⟨by simp, Or.inr ⟨j0, List.mem_range.mp hj0, rfl⟩⟩

theorem sumwWrites_shape (t : Template) :
    ∀ w ∈ sumwWrites t, totalRow t ≤ w.r ∧ w.c ≤ 2 := by
  intro w hw
  rw [sumwWrites] at hw
  simp only [List.mem_cons, List.not_mem_nil, or_false] at hw
  rcases hw with rfl | rfl <;> exact ⟨by simp, by simp⟩

/-- Every non-map chunk's filter at a map cell `(r, c)` with `2 ≤ r` and
`c ∈ {12, 13}` is empty when there are at most 7 options. -/
theorem wswFilter_map_cell (t : Template) (hn : t.options.length ≤ 7)
    (r c : Nat) (hr : 2 ≤ r) (hc : 12 ≤ c) :
    (headerWrites t).filter (fun w => w.r = r ∧ w.c = c) = [] ∧
    (attrWrites t).filter (fun w => w.r = r ∧ w.c = c) = [] ∧
    (sawWrites t).filter (fun w => w.r = r ∧ w.c = c) = [] ∧
    (rankWrites t).filter (fun w => w.r = r ∧ w.c = c) = [] ∧
    (score10Writes t).filter (fun w => w.r = r ∧ w.c = c) = [] ∧
    (sumwWrites t).filter (fun w => w.r = r ∧ w.c = c) = [] := by
  refine ⟨?_, ?_, ?_, ?_, ?_, ?_⟩ <;> rw [List.filter_eq_nil_iff] <;>
    intro w hw <;> simp only [decide_eq_true_eq, not_and]
  · intro hwr
    have := headerWrites_row t w hw
    omega
  · intro hwr
    have h := (attrWritesAux_shape t (attr_names_cc t) 2 w hw).2
    rcases h with h4 | ⟨j0, hj0, hj⟩ <;> omega
  · intro hwr
    have h := (sawWrites_shape t w hw).2
    rcases h with h4 | ⟨j0, hj0, hj⟩ <;> omega
  · intro hwr
    have h := (rankWrites_shape t w hw).2
    rcases h with h4 | ⟨j0, hj0, hj⟩ <;> omega
  · intro hwr
    have h := (score10Writes_shape t w hw).2
    rcases h with h4 | ⟨j0, hj0, hj⟩ <;> omega
  · intro hwr
    have h := (sumwWrites_shape t w hw).2
    omega

theorem wsw_map_intact (t : Template) (hn : t.options.length ≤ 7) (k : Nat) (hk : k < 5) :
    wswFinal t (2 + k) 12 = some (CVal.str (mapName k)) ∧
    wswFinal t (2 + k) 13 = some (CVal.num (k + 1)) := by
  obtain ⟨hh12, ha12, hs12, hr12, hsc12, hsu12⟩ :=
    wswFilter_map_cell t hn (2 + k) 12 (by omega) (by omega)
  obtain ⟨hh13, ha13, hs13, hr13, hsc13, hsu13⟩ :=
    wswFilter_map_cell t hn (2 + k) 13 (by omega) (by omega)
  constructor <;> rw [wswFinal, wswWrites] <;>
    simp only [List.filter_append, hh12, ha12, hs12, hr12, hsc12, hsu12,
      hh13, ha13, hs13, hr13, hsc13, hsu13, List.nil_append, List.append_nil] <;>
    interval_cases k <;> decide

theorem normFormula_ne_poor (addr : String) : normFormula addr ≠ "Poor" := by
  intro h
  have hl := congrArg String.length h
  rw [normFormula, String.length_append, String.length_append] at hl
  have h1 : ("=MAX(0,(IFERROR(INDEX($M$2:$M$6,MATCH('Matrix'!" : String).length = 47 := rfl
  have h2 : ((",$L$2:$L$6,0)),0)-1)/4)" : String).length) = 23 := rfl
  have h3 : ("Poor" : String).length = 4 := rfl
  rw [h1, h2, h3] at hl
  omega

theorem wsw_overwrite (t : Template) (hn : 8 ≤ t.options.length) (ha : 1 ≤ nAttr t) :
    wswFinal t 2 12 ≠ some (CVal.str "Poor") := by
  have ha' : 1 ≤ (attr_names_cc t).length := ha
  obtain ⟨a, rest, hattr⟩ : ∃ a rest, attr_names_cc t = a :: rest := by
    cases h : attr_names_cc t with
    | nil => rw [h] at ha'; simp at ha'
    | cons a rest => exact ⟨a, rest, rfl⟩
  have htr : 3 ≤ totalRow t := by
    have h0 : totalRow t = 2 + nAttr t := rfl
    omega
  have hhead : (headerWrites t).filter (fun w => w.r = 2 ∧ w.c = 12) = [] := by
    rw [List.filter_eq_nil_iff]
    intro w hw
    simp only [decide_eq_true_eq, not_and]
    intro hwr
    have := headerWrites_row t w hw
    omega
  have haux3 : (attrWritesAux t 3 rest).filter (fun w => w.r = 2 ∧ w.c = 12) = [] := by
    rw [List.filter_eq_nil_iff]
    intro w hw
    simp only [decide_eq_true_eq, not_and]
    intro hwr
    have := (attrWritesAux_shape t rest 3 w hw).1
    omega
  have hsawf : (sawWrites t).filter (fun w => w.r = 2 ∧ w.c = 12) = [] := by
    rw [List.filter_eq_nil_iff]
    intro w hw
    simp only [decide_eq_true_eq, not_and]
    intro hwr
    have := (sawWrites_shape t w hw).1
    omega
  have hrankf : (rankWrites t).filter (fun w => w.r = 2 ∧ w.c = 12) = [] := by
    rw [List.filter_eq_nil_iff]
    intro w hw
    simp only [decide_eq_true_eq, not_and]
    intro hwr
    have := (rankWrites_shape t w hw).1
    omega
  have hscoref : (score10Writes t).filter (fun w => w.r = 2 ∧ w.c = 12) = [] := by
    rw [List.filter_eq_nil_iff]
    intro w hw
    simp only [decide_eq_true_eq, not_and]
    intro hwr
    have := (score10Writes_shape t w hw).1
    omega
  have hsumwf : (sumwWrites t).filter (fun w => w.r = 2 ∧ w.c = 12) = [] := by
    rw [List.filter_eq_nil_iff]
    intro w hw
    simp only [decide_eq_true_eq, not_and]
    intro hwr
    have := (sumwWrites_shape t w hw).1
    omega
  have hmapf : mapWrites.filter (fun w => w.r = 2 ∧ w.c = 12) =
      [⟨2, 12, CVal.str "Poor"⟩] := by decide
  have hheads4 : ([⟨2, 1, CVal.str a⟩, ⟨2, 2, CVal.str "Yes"⟩, ⟨2, 3, CVal.num 3⟩,
      ⟨2, 4, CVal.str (weightFormula (nAttr t) 2)⟩] : List WWrite).filter
        (fun w => w.r = 2 ∧ w.c = 12) = [] := by
    rw [List.filter_eq_nil_iff]
    intro w hw
    simp only [List.mem_cons, List.not_mem_nil, or_false] at hw
    rcases hw with rfl | rfl | rfl | rfl <;> simp
  rw [wswFinal, wswWrites, attrWrites, hattr, attrWritesAux, attrRowWrites]
  simp only [List.filter_append, hhead, haux3, hsawf, hrankf, hscoref, hsumwf,
    hmapf, hheads4, List.nil_append, List.append_nil]
  have hmem7 : (⟨2, 5 + 7, CVal.str (normFormula ((upperAddrs t (7 + 1)).getD (2 - 2) ""))⟩ : WWrite) ∈
      ((List.range t.options.length).map
        (fun j0 => (⟨2, 5 + j0, CVal.str (normFormula ((upperAddrs t (j0 + 1)).getD (2 - 2) ""))⟩ : WWrite))).filter
        (fun w => w.r = 2 ∧ w.c = 12) := by
    apply List.mem_filter.mpr
    refine ⟨List.mem_map.mpr ⟨7, List.mem_range.mpr (by omega), rfl⟩, by simp⟩
  have hne : ((List.range t.options.length).map
      (fun j0 => (⟨2, 5 + j0, CVal.str (normFormula ((upperAddrs t (j0 + 1)).getD (2 - 2) ""))⟩ : WWrite))).filter
      (fun w => w.r = 2 ∧ w.c = 12) ≠ [] := List.ne_nil_of_mem hmem7
  rw [List.getLast?_append]
  cases hgl : (((List.range t.options.length).map
      (fun j0 => (⟨2, 5 + j0, CVal.str (normFormula ((upperAddrs t (j0 + 1)).getD (2 - 2) ""))⟩ : WWrite))).filter
      (fun w => w.r = 2 ∧ w.c = 12)).getLast? with
  | none =>
    have hs := (List.getLast?_isSome).mpr hne
    rw [hgl] at hs
    simp at hs
  | some w =>
    have hwmem := List.mem_of_getLast?_eq_some hgl
    have hwmap := (List.mem_filter.mp hwmem).1
    rcases List.mem_map.mp hwmap with ⟨j0, _, rfl⟩
    simp only [Option.or_some, Option.map_some]
    intro heq
    have hv := Option.some.inj heq
    have hs := CVal.str.inj hv
    exact normFormula_ne_poor _ hs

/-- C9 counterexample: with exactly 8 options the per-option NormScore/SAW
columns reach column 12 (`L`) but not column 13 (`M`), so the claim's "for 8
or more options the per-option columns reach columns L and M" fails at 8. -/
theorem c9_counterexample :
    12 ∈ wswNormCols t8 ∧ 13 ∉ wswNormCols t8 := by
  refine ⟨by decide, by decide⟩

/-- C9 (amended): with at most 7 options every per-option NormScore/SAW
column lies strictly left of column 12, and the rating→number map written to
columns L/M rows 2-6 is the final content of those cells, so the INDEX/MATCH
lookups read an intact map. With 8 or more options the per-option columns
reach column L (and column M from 9 options on), and (with at least one
attribute row) the map cell L2 is overwritten by a NormScore formula. -/
theorem c9_map_region_amended :
    (∀ t : Template, t.options.length ≤ 7 →
       (∀ c ∈ wswNormCols t, c < 12) ∧
       ∀ k : Nat, k < 5 →
         wswFinal t (2 + k) 12 = some (CVal.str (mapName k)) ∧
         wswFinal t (2 + k) 13 = some (CVal.num (k + 1))) ∧
    (∀ t : Template, 8 ≤ t.options.length →
       12 ∈ wswNormCols t ∧
       (1 ≤ nAttr t → wswFinal t 2 12 ≠ some (CVal.str "Poor"))) ∧
    (∀ t : Template, 9 ≤ t.options.length → 13 ∈ wswNormCols t) := by
  refine ⟨?_, ?_, ?_⟩
  · intro t hn
    constructor
    · intro c hc
      rcases List.mem_map.mp hc with ⟨j0, hj0, rfl⟩
      have := List.mem_range.mp hj0
      omega
    · intro k hk
      exact wsw_map_intact t hn k hk
  · intro t hn
    constructor
    · exact List.mem_map.mpr ⟨7, List.mem_range.mpr (by omega), rfl⟩
    · intro ha
      exact wsw_overwrite t hn ha
  · intro t hn
    exact List.mem_map.mpr ⟨8, List.mem_range.mpr (by omega), rfl⟩

/-- C9 witness: the amended theorem at templates with 1, 8 and 9 options. -/
theorem c9_witness :
    (wswFinal tNoAdv 2 12 = some (CVal.str (mapName 0)) ∧
     wswFinal tNoAdv 2 13 = some (CVal.num 1)) ∧
    (12 ∈ wswNormCols t8 ∧
     (1 ≤ nAttr t8 → wswFinal t8 2 12 ≠ some (CVal.str "Poor"))) ∧
    13 ∈ wswNormCols t9 :=
  ⟨(c9_map_region_amended.1 tNoAdv (by decide)).2 0 (by decide),
   c9_map_region_amended.2.1 t8 (by decide),
   c9_map_region_amended.2.2 t9 (by decide)⟩

/-! ## Claim C1: rating/description splitting, claim versus code -/

/-- C1 counterexample: `"7: abc"` does not begin with a rating word or a
numeral 1-5, so by the claim the result must be `("", "7: abc")`; the
regex's numeral class is `\d`, so the code strips the token and separator
and returns `("", "abc")`. Likewise on `" hello "` the claim demands the
full raw text back, while the code returns the stripped text. -/
theorem c1_counterexample :
    split_rating_and_desc "7: abc" = ("", "abc") ∧
    c1_claimSplit "7: abc" = ("", "7: abc") ∧
    split_rating_and_desc "7: abc" ≠ c1_claimSplit "7: abc" ∧
    split_rating_and_desc " hello " = ("", "hello") ∧
    c1_claimSplit " hello " = ("", " hello ") ∧
    split_rating_and_desc " hello " ≠ c1_claimSplit " hello " := by
  refine ⟨by decide, by decide, by decide, by decide, by decide, by decide⟩

theorem amTail_eq (r : List Char) : amTail r = tailMatch r := rfl

theorem map_orElse' {α β : Type} (a : Option α) (b : Unit → Option α) (f : α → β) :
    (a.orElse b).map f = (a.map f).orElse (fun u => (b u).map f) := by
  cases a <;> rfl

theorem wordAlt_map (w : List Char) (out : String) (hw : codeRatingWord w = out)
    (s : List Char) :
    (wordAlt w s).map (fun p => (codeRatingWord p.1, p.2)) = amWordAlt w out s := by
  simp only [wordAlt, amWordAlt, amTail_eq]
  cases h1 : ciMatch w s with
  | none => rfl
  | some r =>
    cases h2 : tailMatch r with
    | none => simp [h2]
    | some d => simp [h2, hw]

theorem codeRatingWord_vg (ws : List Char) :
    codeRatingWord ("very".data ++ ws ++ "good".data) =
      if ws = [' '] then "Very Good" else "" := by
  by_cases h : ws = [' ']
  · subst h
    rw [if_pos rfl]
    decide
  · rw [if_neg h]
    have hhead : ("very".data ++ ws ++ "good".data).head? = some 'v' := rfl
    have hp : ¬("very".data ++ ws ++ "good".data = "poor".data) := by
      intro he
      rw [he] at hhead
      exact absurd hhead (by decide)
    have hf : ¬("very".data ++ ws ++ "good".data = "fair".data) := by
      intro he
      rw [he] at hhead
      exact absurd hhead (by decide)
    have hg : ¬("very".data ++ ws ++ "good".data = "good".data) := by
      intro he
      rw [he] at hhead
      exact absurd hhead (by decide)
    have he9 : ¬("very".data ++ ws ++ "good".data = "excellent".data) := by
      intro he
      rw [he] at hhead
      exact absurd hhead (by decide)
    have hvg : ¬("very".data ++ ws ++ "good".data = "very good".data) := by
      intro he
      apply h
      have hx : "very".data ++ (ws ++ "good".data) = "very".data ++ ([' '] ++ "good".data) := by
        calc "very".data ++ (ws ++ "good".data)
            = "very".data ++ ws ++ "good".data := (List.append_assoc _ _ _).symm
          _ = "very good".data := he
          _ = "very".data ++ ([' '] ++ "good".data) := rfl
      exact List.append_cancel_right (List.append_cancel_left hx)
    rw [codeRatingWord, if_neg hp, if_neg hf, if_neg hg, if_neg hvg, if_neg he9]
    · intro d he
      have hlen := congrArg List.length he
      have h4 : ("very".data).length = 4 := rfl
      have hg4 : ("good".data).length = 4 := rfl
      have h1 : ([d] : List Char).length = 1 := rfl
      rw [List.length_append, List.length_append, h4, hg4, h1] at hlen
      omega
    · intro d he
      have hlen := congrArg List.length he
      have h4 : ("very".data).length = 4 := rfl
      have hg4 : ("good".data).length = 4 := rfl
      have h1 : ([d, '.', '0'] : List Char).length = 3 := rfl
      rw [List.length_append, List.length_append, h4, hg4, h1] at hlen
      omega

theorem veryGoodAlt_map (s : List Char) :
    (veryGoodAlt s).map (fun p => (codeRatingWord p.1, p.2)) = amVeryGood s := by
  simp only [veryGoodAlt, amVeryGood, amTail_eq]
  cases h1 : ciMatch "very".data s with
  | none => rfl
  | some r1 =>
    simp only []
    by_cases h2 : (r1.takeWhile isSpace).isEmpty
    · simp [h2]
    · simp only [h2, if_false, Bool.false_eq_true]
      cases h3 : ciMatch "good".data (r1.dropWhile isSpace) with
      | none => rfl
      | some r2 =>
        cases h4 : tailMatch r2 with
        | none => simp [h4]
        | some d =>
          simp [h4]
          exact codeRatingWord_vg (List.takeWhile isSpace r1)

theorem ratingOfDigit_eq (c : Char) : ratingOfDigit c = claimDigitWord c := by
  simp only [ratingOfDigit, digitVal, claimDigitWord]
  split_ifs <;> first | rfl | simp_all

theorem codeRatingWord_digit1 (c : Char) : codeRatingWord [c] = claimDigitWord c := by
  have hp : ¬(([c] : List Char) = "poor".data) := by
    intro he
    have hlen := congrArg List.length he
    have h4 : ("poor".data).length = 4 := rfl
    have h1 : ([c] : List Char).length = 1 := rfl
    rw [h1, h4] at hlen
    exact absurd hlen (by decide)
  have hf : ¬(([c] : List Char) = "fair".data) := by
    intro he
    have hlen := congrArg List.length he
    have h4 : ("fair".data).length = 4 := rfl
    have h1 : ([c] : List Char).length = 1 := rfl
    rw [h1, h4] at hlen
    exact absurd hlen (by decide)
  have hg : ¬(([c] : List Char) = "good".data) := by
    intro he
    have hlen := congrArg List.length he
    have h4 : ("good".data).length = 4 := rfl
    have h1 : ([c] : List Char).length = 1 := rfl
    rw [h1, h4] at hlen
    exact absurd hlen (by decide)
  have hvg : ¬(([c] : List Char) = "very good".data) := by
    intro he
    have hlen := congrArg List.length he
    have h4 : ("very good".data).length = 9 := rfl
    have h1 : ([c] : List Char).length = 1 := rfl
    rw [h1, h4] at hlen
    exact absurd hlen (by decide)
  have he9 : ¬(([c] : List Char) = "excellent".data) := by
    intro he
    have hlen := congrArg List.length he
    have h4 : ("excellent".data).length = 9 := rfl
    have h1 : ([c] : List Char).length = 1 := rfl
    rw [h1, h4] at hlen
    exact absurd hlen (by decide)
  rw [codeRatingWord, if_neg hp, if_neg hf, if_neg hg, if_neg hvg, if_neg he9]
  exact ratingOfDigit_eq c

theorem codeRatingWord_digit3 (c : Char) :
    codeRatingWord [c, '.', '0'] = claimDigitWord c := by
  have hp : ¬(([c, '.', '0'] : List Char) = "poor".data) := by
    intro he
    have hlen := congrArg List.length he
    have h4 : ("poor".data).length = 4 := rfl
    have h1 : ([c, '.', '0'] : List Char).length = 3 := rfl
    rw [h1, h4] at hlen
    exact absurd hlen (by decide)
  have hf : ¬(([c, '.', '0'] : List Char) = "fair".data) := by
    intro he
    have hlen := congrArg List.length he
    have h4 : ("fair".data).length = 4 := rfl
    have h1 : ([c, '.', '0'] : List Char).length = 3 := rfl
    rw [h1, h4] at hlen
    exact absurd hlen (by decide)
  have hg : ¬(([c, '.', '0'] : List Char) = "good".data) := by
    intro he
    have hlen := congrArg List.length he
    have h4 : ("good".data).length = 4 := rfl
    have h1 : ([c, '.', '0'] : List Char).length = 3 := rfl
    rw [h1, h4] at hlen
    exact absurd hlen (by decide)
  have hvg : ¬(([c, '.', '0'] : List Char) = "very good".data) := by
    intro he
    have hlen := congrArg List.length he
    have h4 : ("very good".data).length = 9 := rfl
    have h1 : ([c, '.', '0'] : List Char).length = 3 := rfl
    rw [h1, h4] at hlen
    exact absurd hlen (by decide)
  have he9 : ¬(([c, '.', '0'] : List Char) = "excellent".data) := by
    intro he
    have hlen := congrArg List.length he
    have h4 : ("excellent".data).length = 9 := rfl
    have h1 : ([c, '.', '0'] : List Char).length = 3 := rfl
    rw [h1, h4] at hlen
    exact absurd hlen (by decide)
  rw [codeRatingWord, if_neg hp, if_neg hf, if_neg hg, if_neg hvg, if_neg he9]
  exact ratingOfDigit_eq c

theorem digitAlt_map (s : List Char) :
    (digitAlt s).map (fun p => (codeRatingWord p.1, p.2)) = amDigit s := by
  cases s with
  | nil => rfl
  | cons c rest =>
    simp only [digitAlt, amDigit, amTail_eq]
    by_cases hd : c.isDigit
    · simp only [hd, if_true]
      split
      · rename_i r2
        cases h2 : tailMatch r2 with
        | some d => simp [h2, codeRatingWord_digit3]
        | none =>
          simp only [h2]
          cases h3 : tailMatch ('.' :: '0' :: r2) with
          | none => simp [h3]
          | some d => simp [h3, codeRatingWord_digit1]
      · cases h2 : tailMatch rest with
        | none => simp [h2]
        | some d => simp [h2, codeRatingWord_digit1]
    · simp [hd]

theorem ratingScan_map (s : List Char) :
    (ratingScan s).map (fun p => (codeRatingWord p.1, p.2)) = amScan s := by
  simp only [ratingScan, amScan, map_orElse', veryGoodAlt_map,
    wordAlt_map "excellent".data "Excellent" (by decide),
    wordAlt_map "good".data "Good" (by decide),
    wordAlt_map "fair".data "Fair" (by decide),
    wordAlt_map "poor".data "Poor" (by decide),
    digitAlt_map]

/-- C1 (amended): over every cell text the source's rating/description
splitting agrees with the amended claim's description: the pattern accepts
the five rating words (case-insensitive, any non-empty whitespace run inside
`very good`) or any single decimal digit (`.0` suffix tolerated), optionally
followed by a colon/hyphen/en-dash/em-dash separator and a newline-free
trailing description; digits 1-5 map to Poor…Excellent, canonical words to
their rating words, and every other accepted token (digits 0 and 6-9,
non-canonical `very good` whitespace) yields rating `""` with the trailing
text as description; unmatched text yields rating `""` and the stripped raw
text as description. -/
theorem c1_split_rating_amended (raw : String) :
    split_rating_and_desc raw = c1_amendedSplit raw := by
  rw [split_rating_and_desc, c1_amendedSplit]
  by_cases h : pyStrip raw.data = []
  · simp [h]
  · simp only [h, if_false]
    rw [← ratingScan_map (pyStrip raw.data)]
    cases h2 : ratingScan (pyStrip raw.data) with
    | none => simp [h2]
    | some p =>
      cases p with
      | mk tok d => simp [h2]
